import Mathlib

/-!
Verification development for the pisco playback controller.

The definitions below are shallow embeddings of the Python source:
machine integers become `Int`/`Nat`, floating-point division with
Python's `round` becomes exact rational arithmetic with round-half-to-even,
fallible code returns `Except`, and stateful components become explicit
state-passing functions.  Side effects (backlight writes, network I/O,
widget configuration) are recorded as explicit effect values so that
theorems can speak about which operations a code path invokes.
-/

/-- Python's builtin `round` on an exact rational value: round half to even
(banker's rounding), as used by `round(...)` in `_resize_image`. -/
def roundHalfToEven (q : ℚ) : ℤ :=
  if q - (⌊q⌋ : ℚ) < 1 / 2 then ⌊q⌋
  else if 1 / 2 < q - (⌊q⌋ : ℚ) then ⌊q⌋ + 1
  else if ⌊q⌋ % 2 = 0 then ⌊q⌋ else ⌊q⌋ + 1

/-- Embedding of `_resize_image` from `pisco/input_output/http_image.py`,
restricted to the dimension arithmetic (the pixel resampling done by
`PIL.Image.resize` takes the computed size as-is).  Input: source image
`width`/`height` and the bounding box `max_width`/`max_height`;
output: the `(new_width, new_height)` passed to `image.resize`. -/
def _resize_image (width height max_width max_height : ℤ) : ℤ × ℤ :=
  if max_width * height ≤ max_height * width then
    (max_width, roundHalfToEven (((height * max_width : ℤ) : ℚ) / ((width : ℤ) : ℚ)))
  else
    (roundHalfToEven (((width * max_height : ℤ) : ℚ) / ((height : ℤ) : ℚ)), max_height)

/-- Errors raised inside the image pipeline of `pisco/input_output/http_image.py`:
the `ValueError` for an unsupported URI scheme, a network failure inside
`urllib.request.urlopen`, and a decode failure inside `PIL.Image.open`. -/
inductive ImageError where
  | valueError
  | downloadFailure
  | decodeFailure
deriving DecidableEq

/-- Raw bytes of a downloaded resource. -/
abbrev ByteContent := List ℕ

/-- Python's `str.startswith`, evaluated on the character lists of the strings. -/
def startsWithChars (s pre : String) : Bool :=
  pre.data.isPrefixOf s.data

/-- Embedding of `_download_resource`: the supported-scheme check happens before
any network request.  `net` models `urllib.request.urlopen(uri).read()`; the
second component counts how many network requests were attempted. -/
def _download_resource (net : String → Except ImageError ByteContent)
    (absolute_uri : String) : Except ImageError ByteContent × ℕ :=
  if startsWithChars absolute_uri "http:" || startsWithChars absolute_uri "https:" then
    (net absolute_uri, 1)
  else
    (Except.error ImageError.valueError, 0)

/-- Key of the `functools.lru_cache(maxsize=1)` wrapper around `get_photo_image`:
the tuple of the call's arguments `(absolute_uri, max_width, max_height)`. -/
abbrev CacheKey := String × ℤ × ℤ

/-- Outcome of one call of the cached `get_photo_image`: the returned value or
raised error, the cache state after the call, and how often the function body
(the download/decode/flatten/resize pipeline) actually ran during the call. -/
structure ResolveResult (α : Type) where
  result : Except ImageError α
  cache : Option (CacheKey × α)
  runs : ℕ

/-- Embedding of `get_photo_image` together with its
`functools.lru_cache(maxsize=1)` wrapper.  The cache state is the single most
recent entry (`none` when the cache is empty).  `pipeline` models the function
body: download, decode, alpha removal, resize, photo-image conversion.
`lru_cache` stores a result only when the body returns normally; a raised
exception leaves the cache unchanged. -/
def get_photo_image {α : Type} (pipeline : CacheKey → Except ImageError α)
    (cache : Option (CacheKey × α)) (key : CacheKey) : ResolveResult α :=
  match cache with
  | some (k, v) =>
      if k = key then
        ⟨Except.ok v, cache, 0⟩
      else
        match pipeline key with
        | Except.ok v2 => ⟨Except.ok v2, some (key, v2), 1⟩
        | Except.error e => ⟨Except.error e, cache, 1⟩
  | none =>
      match pipeline key with
      | Except.ok v2 => ⟨Except.ok v2, some (key, v2), 1⟩
      | Except.error e => ⟨Except.error e, cache, 1⟩

/-- PIL image modes that `PIL.Image.open` can decode to: the repository's
image-format test matrix (`1`, `CMYK`, `F`, `I`, `L`, `P`, `RGB`, `RGBA`,
`RGBX`, `YCbCr`) together with the alpha-bearing modes `LA` (grayscale plus
alpha) and `PA` (palette plus alpha), which PIL also produces, e.g. for
grayscale-with-alpha PNG files. -/
inductive PILMode where
  | one
  | CMYK
  | F
  | I
  | L
  | LA
  | P
  | PA
  | RGB
  | RGBA
  | RGBX
  | YCbCr
deriving DecidableEq

/-- Whether a mode stores an alpha (transparency) channel: `RGBA`, `LA` and
`PA` do; every other decodable mode does not. -/
def PILMode.hasAlphaChannel : PILMode → Bool
  | PILMode.RGBA => true
  | PILMode.LA => true
  | PILMode.PA => true
  | _ => false

/-- An 8-bit-per-channel pixel; the alpha component is ignored by modes
without an alpha channel. -/
structure Pixel where
  r : ℕ
  g : ℕ
  b : ℕ
  a : ℕ
deriving DecidableEq

/-- A decoded PIL image: mode, size, and pixel access. -/
structure PILImage where
  mode : PILMode
  width : ℕ
  height : ℕ
  px : ℕ → ℕ → Pixel

/-- PIL's `MULDIV255` macro, an approximation of `a * b / 255` computed as
`tmp = a * b + 128; ((tmp >> 8) + tmp) >> 8`. -/
def muldiv255 (a b : ℕ) : ℕ :=
  ((a * b + 128) / 256 + (a * b + 128)) / 256

/-- PIL's 8-bit channel blend performed by `Image.paste` with an `L`-mode mask:
`BLEND(mask, in1, in2) = MULDIV255(in1, 255 - mask) + MULDIV255(in2, mask)`,
with `MULDIV255` rounding applied per term. -/
def blend255 (bg fg m : ℕ) : ℕ :=
  muldiv255 bg (255 - m) + muldiv255 fg m

/-- Embedding of `_remove_alpha_channel`: a non-RGBA image is returned as-is;
an RGBA image is pasted onto a fresh opaque white `RGB` image of the same size,
with the image's alpha channel (`image.getchannel("A")`) as the paste mask. -/
def _remove_alpha_channel (image : PILImage) : PILImage :=
  if image.mode ≠ PILMode.RGBA then
    image
  else
    { mode := PILMode.RGB
      width := image.width
      height := image.height
      px := fun x y =>
        let p := image.px x y
        { r := blend255 255 p.r p.a
          g := blend255 255 p.g p.a
          b := blend255 255 p.b p.a
          a := 255 } }

/-- Track metadata carried by an AV transport event; `album_art_uri = none`
models a metadata object without the `album_art_uri` attribute
(`hasattr(track_meta_data, "album_art_uri")` is false). -/
structure TrackMetaData where
  album_art_uri : Option String

/-- An AV transport event as consumed by `PlaybackInformationLabel`:
`event.variables["transport_state"]`, `event.variables["current_track_meta_data"]`,
and the URI composition `event.service.soco.music_library.build_album_art_full_uri`. -/
structure AVTransportEvent where
  transport_state : String
  current_track_meta_data : TrackMetaData
  build_album_art_full_uri : String → String

/-- Observable operations invoked while processing an event: backlight
activation/deactivation, an actual run of the image pipeline, and a
`self.config(image=...)` call (`none` is the empty string, i.e. no image). -/
inductive UIEffect (α : Type) where
  | backlightActivate
  | backlightDeactivate
  | pipelineRun (key : CacheKey)
  | configImage (image : Option α)

/-- Mutable state of `PlaybackInformationLabel` relevant to event processing:
the currently configured label image and the single-slot photo-image cache. -/
structure LabelState (α : Type) where
  image : Option α
  cache : Option (CacheKey × α)

/-- Outcome of one handler run: normal return or raised exception, the label
state afterwards, and the effects invoked, in order. -/
structure StepResult (α : Type) where
  result : Except ImageError Unit
  state : LabelState α
  effects : List (UIEffect α)

/-- Embedding of `PlaybackInformationLabel._update_album_art`.  A truthy URI is
resolved through the cached `get_photo_image`; a raised resolution error
propagates before `self.config` is reached.  A `None` (or falsy empty) URI
configures the label with the empty image. -/
def _update_album_art {α : Type} (pipeline : CacheKey → Except ImageError α)
    (max_width max_height : ℤ) (st : LabelState α) (absolute_uri : Option String) :
    StepResult α :=
  match absolute_uri with
  | some uri =>
      if uri = "" then
        ⟨Except.ok (), { st with image := none }, [UIEffect.configImage none]⟩
      else
        match get_photo_image pipeline st.cache (uri, max_width, max_height) with
        | ⟨Except.ok v, cache2, runs⟩ =>
            ⟨Except.ok (), { image := some v, cache := cache2 },
              (if runs = 0 then [] else [UIEffect.pipelineRun (uri, max_width, max_height)]) ++
                [UIEffect.configImage (some v)]⟩
        | ⟨Except.error e, cache2, runs⟩ =>
            ⟨Except.error e, { st with cache := cache2 },
              if runs = 0 then [] else [UIEffect.pipelineRun (uri, max_width, max_height)]⟩
  | none =>
      ⟨Except.ok (), { st with image := none }, [UIEffect.configImage none]⟩

/-- Embedding of `PlaybackInformationLabel._process_track_meta_data`: when the
metadata carries an `album_art_uri` attribute, the full URI is built and the
album art updated; otherwise nothing happens. -/
def _process_track_meta_data {α : Type} (pipeline : CacheKey → Except ImageError α)
    (max_width max_height : ℤ) (event : AVTransportEvent) (st : LabelState α) :
    StepResult α :=
  match event.current_track_meta_data.album_art_uri with
  | some album_art_uri =>
      _update_album_art pipeline max_width max_height st
        (some (event.build_album_art_full_uri album_art_uri))
  | none => ⟨Except.ok (), st, []⟩

/-- Embedding of `PlaybackInformationLabel._process_av_transport_event`: for
transport state `PLAYING` or `TRANSITIONING` the track metadata is processed and
then the backlight activated (skipped when metadata processing raises); for every
other state the backlight is deactivated and the album art cleared. -/
def _process_av_transport_event {α : Type} (pipeline : CacheKey → Except ImageError α)
    (max_width max_height : ℤ) (event : AVTransportEvent) (st : LabelState α) :
    StepResult α :=
  if event.transport_state = "PLAYING" ∨ event.transport_state = "TRANSITIONING" then
    match _process_track_meta_data pipeline max_width max_height event st with
    | ⟨Except.ok _, st2, effects⟩ =>
        ⟨Except.ok (), st2, effects ++ [UIEffect.backlightActivate]⟩
    | ⟨Except.error e, st2, effects⟩ =>
        ⟨Except.error e, st2, effects⟩
  else
    match _update_album_art pipeline max_width max_height st none with
    | ⟨r, st2, effects⟩ =>
        ⟨r, st2, UIEffect.backlightDeactivate :: effects⟩

/-- Result of one tick of `_process_av_transport_event_queue`: the remaining
queue, the label state, whether `self.after` rescheduled the next tick (it runs
in the `finally` block), and the handler outcome (`Except.error` models an
exception propagating out of the callback). -/
structure TickResult (α : Type) where
  queue : List AVTransportEvent
  state : LabelState α
  rescheduled : Bool
  result : Except ImageError Unit

/-- Embedding of `PlaybackInformationLabel._process_av_transport_event_queue`:
dequeue at most one event with the non-blocking `get_nowait` (the head of the
queue; `queue.Empty` when the queue is empty), process it, and reschedule the
next tick in the `finally` block — also when the handler raises. -/
def _process_av_transport_event_queue {α : Type}
    (pipeline : CacheKey → Except ImageError α) (max_width max_height : ℤ)
    (q : List AVTransportEvent) (st : LabelState α) : TickResult α :=
  match q with
  | [] => ⟨[], st, true, Except.ok ()⟩
  | event :: rest =>
      match _process_av_transport_event pipeline max_width max_height event st with
      | ⟨r, st2, _⟩ => ⟨rest, st2, true, r⟩

/-- A resource of a Sonos favorite (`favorite.resources[i].uri`). -/
structure DidlResource where
  uri : String

/-- A Sonos favorite as returned by `music_library.get_sonos_favorites()`.
`is_didl_object` models the `isinstance(favorite, soco.data_structures.DidlObject)`
check; `resource_meta_data = none` models a favorite without the
`resource_meta_data` attribute. -/
structure Favorite where
  is_didl_object : Bool
  resource_meta_data : Option String
  resources : List DidlResource

/-- Transport commands issued to the SoCo controller by the favorites code path. -/
inductive PlayCommand where
  | playUriWithMeta (uri meta : String)
  | playUriOnly (uri : String)

/-- Errors escaping `play_sonos_favorite_by_index`: the `IndexError` of a list
access beyond the end of the list. -/
inductive SonosError where
  | indexError
deriving DecidableEq

/-- Embedding of `SonosDeviceManager._play_sonos_favorite`: play with metadata
when the favorite has `resource_meta_data`, else fall back to URI-only playback
(logged as degraded).  Either way `favorite.resources[0]` is a plain list
access, raising `IndexError` when `resources` is empty. -/
def _play_sonos_favorite (favorite : Favorite) : Except SonosError (List PlayCommand) :=
  match favorite.resource_meta_data with
  | some meta =>
      match favorite.resources[0]? with
      | some r => Except.ok [PlayCommand.playUriWithMeta r.uri meta]
      | none => Except.error SonosError.indexError
  | none =>
      match favorite.resources[0]? with
      | some r => Except.ok [PlayCommand.playUriOnly r.uri]
      | none => Except.error SonosError.indexError

/-- Embedding of `SonosDeviceManager.play_sonos_favorite_by_index`: the favorite
is fetched from `get_sonos_favorites()` with a plain list index (raising
`IndexError` beyond the end); a favorite that is not a `DidlObject` is logged as
an error and no command is issued; otherwise playback starts.  The returned list
holds the `play_uri` commands issued to the controller. -/
def play_sonos_favorite_by_index (favorites : List Favorite) (index : ℕ) :
    Except SonosError (List PlayCommand) :=
  match favorites[index]? with
  | none => Except.error SonosError.indexError
  | some favorite =>
      if favorite.is_didl_object then _play_sonos_favorite favorite
      else Except.ok []

/-- The commands actually issued to the controller by a call's outcome. -/
def issuedCommands : Except SonosError (List PlayCommand) → List PlayCommand
  | Except.ok cmds => cmds
  | Except.error _ => []

/-- The two brightness files of a sysfs backlight directory. -/
structure SysfsBacklightState where
  brightness : ℕ
  max_brightness : ℕ
deriving DecidableEq

/-- A backlight as produced by `get_backlight`: the `DummyBacklight` (no sysfs
directory configured) or a `SysfsBacklight` over its directory state. -/
inductive Backlight where
  | dummy
  | sysfs (st : SysfsBacklightState)
deriving DecidableEq

/-- Embedding of `activate`: the sysfs variant reads `max_brightness` and writes
it into `brightness`, inside a `try` block whose `except OSError` handler logs
the failure and swallows it.  `io_ok` models whether the sysfs read/write
raises `OSError`: on `false` the state is left unchanged and no exception
escapes.  `DummyBacklight.activate` does nothing. -/
def Backlight.activate (io_ok : Bool) : Backlight → Backlight
  | Backlight.dummy => Backlight.dummy
  | Backlight.sysfs st =>
      if io_ok then Backlight.sysfs { st with brightness := st.max_brightness }
      else Backlight.sysfs st

/-- Embedding of `deactivate`: the sysfs variant writes `0` into `brightness`,
with the same logged-and-swallowed `OSError` path modelled by `io_ok`;
`DummyBacklight.deactivate` does nothing. -/
def Backlight.deactivate (io_ok : Bool) : Backlight → Backlight
  | Backlight.dummy => Backlight.dummy
  | Backlight.sysfs st =>
      if io_ok then Backlight.sysfs { st with brightness := 0 }
      else Backlight.sysfs st

/-- Embedding of `AbstractBacklight.__exit__` (and equally
`BacklightManager.__exit__` in the earlier application module): exiting the
backlight context manager calls `activate`, whose sysfs I/O may in turn fail
with a swallowed `OSError` (`io_ok = false`). -/
def Backlight.exitContext (io_ok : Bool) (b : Backlight) : Backlight :=
  b.activate io_ok

/-- The brightness value a backlight currently exposes, `none` for the dummy
variant (which has no brightness resource). -/
def Backlight.brightnessValue : Backlight → Option ℕ
  | Backlight.dummy => none
  | Backlight.sysfs st => some st.brightness

lemma roundHalfToEven_le_of_le {q : ℚ} {n : ℤ} (h : q ≤ (n : ℚ)) :
    roundHalfToEven q ≤ n := by
  have hfl : ⌊q⌋ ≤ n := by
    have h2 := Int.floor_le_floor h
    simpa using h2
  unfold roundHalfToEven
  split_ifs with h1 h2 h3
  · exact hfl
  · have hlt : ⌊q⌋ < n := by
      rcases lt_or_eq_of_le hfl with h4 | h4
      · exact h4
      · exfalso
        apply h1
        have hcast : (⌊q⌋ : ℚ) = (n : ℚ) := by exact_mod_cast h4
        have hq : q - (⌊q⌋ : ℚ) ≤ 0 := by rw [hcast]; linarith
        linarith
    omega
  · exact hfl
  · have hlt : ⌊q⌋ < n := by
      rcases lt_or_eq_of_le hfl with h4 | h4
      · exact h4
      · exfalso
        apply h1
        have hcast : (⌊q⌋ : ℚ) = (n : ℚ) := by exact_mod_cast h4
        have hq : q - (⌊q⌋ : ℚ) ≤ 0 := by rw [hcast]; linarith
        linarith
    omega

/-- Claim C2: for every source image of width `w > 0` and height `h > 0` and every
box `(maxW, maxH)`, `_resize_image` produces `(maxW, round(h * maxW / w))` when
`maxW * h ≤ maxH * w` and `(round(w * maxH / h), maxH)` otherwise; consequently
the new width is at most `maxW`, the new height is at most `maxH`, and at least one
of the two bounds is attained exactly.  In particular a 600x300 source image resized
for a 240x320 box yields 240x120. -/
theorem resize_image_spec (w h maxW maxH : ℤ) (hw : 0 < w) (hh : 0 < h) :
    (maxW * h ≤ maxH * w →
      _resize_image w h maxW maxH =
        (maxW, roundHalfToEven (((h * maxW : ℤ) : ℚ) / ((w : ℤ) : ℚ)))) ∧
    (¬ maxW * h ≤ maxH * w →
      _resize_image w h maxW maxH =
        (roundHalfToEven (((w * maxH : ℤ) : ℚ) / ((h : ℤ) : ℚ)), maxH)) ∧
    (_resize_image w h maxW maxH).1 ≤ maxW ∧
    (_resize_image w h maxW maxH).2 ≤ maxH ∧
    ((_resize_image w h maxW maxH).1 = maxW ∨ (_resize_image w h maxW maxH).2 = maxH) ∧
    _resize_image 600 300 240 320 = (240, 120) := by
  have hw' : (0 : ℚ) < ((w : ℤ) : ℚ) := by exact_mod_cast hw
  have hh' : (0 : ℚ) < ((h : ℤ) : ℚ) := by exact_mod_cast hh
  have hconc : _resize_image 600 300 240 320 = (240, 120) := by
    norm_num [_resize_image, roundHalfToEven]
  by_cases hc : maxW * h ≤ maxH * w
  · have hq : ((h * maxW : ℤ) : ℚ) / ((w : ℤ) : ℚ) ≤ ((maxH : ℤ) : ℚ) := by
      rw [div_le_iff₀ hw']
      have hc' : ((maxW : ℤ) : ℚ) * ((h : ℤ) : ℚ) ≤ ((maxH : ℤ) : ℚ) * ((w : ℤ) : ℚ) := by
        exact_mod_cast hc
      push_cast
      push_cast at hc'
      nlinarith [hc']
    have hround : roundHalfToEven (((h * maxW : ℤ) : ℚ) / ((w : ℤ) : ℚ)) ≤ maxH :=
      roundHalfToEven_le_of_le hq
    refine ⟨fun _ => by simp [_resize_image, hc], fun hcontra => absurd hc hcontra,
      ?_, ?_, ?_, hconc⟩
    · simp [_resize_image, hc]
    · simpa [_resize_image, hc] using hround
    · left
      simp [_resize_image, hc]
  · have hlt : maxH * w < maxW * h := lt_of_not_le hc
    have hq : ((w * maxH : ℤ) : ℚ) / ((h : ℤ) : ℚ) ≤ ((maxW : ℤ) : ℚ) := by
      rw [div_le_iff₀ hh']
      have hc' : ((maxH : ℤ) : ℚ) * ((w : ℤ) : ℚ) ≤ ((maxW : ℤ) : ℚ) * ((h : ℤ) : ℚ) :=
        by exact_mod_cast le_of_lt hlt
      push_cast
      push_cast at hc'
      nlinarith [hc']
    have hround : roundHalfToEven (((w * maxH : ℤ) : ℚ) / ((h : ℤ) : ℚ)) ≤ maxW :=
      roundHalfToEven_le_of_le hq
    refine ⟨fun hcontra => absurd hcontra hc, fun _ => by simp [_resize_image, hc],
      ?_, ?_, ?_, hconc⟩
    · simpa [_resize_image, hc] using hround
    · simp [_resize_image, hc]
    · right
      simp [_resize_image, hc]

/-- Witness for `resize_image_spec` at the concrete 600x300 image and 240x320 box. -/
theorem resize_image_spec_witness :
    (_resize_image 600 300 240 320).1 ≤ 240 ∧ (_resize_image 600 300 240 320).2 ≤ 320 ∧
    _resize_image 600 300 240 320 =
      (240, roundHalfToEven (((300 * 240 : ℤ) : ℚ) / ((600 : ℤ) : ℚ))) :=
  ⟨(resize_image_spec 600 300 240 320 (by norm_num) (by norm_num)).2.2.1,
   (resize_image_spec 600 300 240 320 (by norm_num) (by norm_num)).2.2.2.1,
   (resize_image_spec 600 300 240 320 (by norm_num) (by norm_num)).1 (by norm_num)⟩

/-- Claim C3: two consecutive calls of the cached `get_photo_image` with the same
key, starting from an empty cache, run the pipeline exactly once: the first call
runs it once and stores the result, the second call runs it zero times and
returns the cached result of the first call, leaving the cache unchanged. -/
theorem get_photo_image_memoizes {α : Type} (pipeline : CacheKey → Except ImageError α)
    (key : CacheKey) (v : α) (hp : pipeline key = Except.ok v) :
    (get_photo_image pipeline none key).result = Except.ok v ∧
    (get_photo_image pipeline none key).runs = 1 ∧
    (get_photo_image pipeline (get_photo_image pipeline none key).cache key).result =
      Except.ok v ∧
    (get_photo_image pipeline (get_photo_image pipeline none key).cache key).runs = 0 ∧
    (get_photo_image pipeline (get_photo_image pipeline none key).cache key).cache =
      (get_photo_image pipeline none key).cache := by
  simp [get_photo_image, hp]

/-- Witness for `get_photo_image_memoizes` with a concrete pipeline and key. -/
theorem get_photo_image_memoizes_witness :
    (get_photo_image (fun _ => Except.ok 7) none ("http://a/art.png", 240, 320)).result =
      Except.ok 7 ∧
    (get_photo_image (fun _ => Except.ok 7) none ("http://a/art.png", 240, 320)).runs = 1 ∧
    (get_photo_image (fun _ => Except.ok 7)
      (get_photo_image (fun _ => Except.ok 7) none ("http://a/art.png", 240, 320)).cache
      ("http://a/art.png", 240, 320)).result = Except.ok 7 ∧
    (get_photo_image (fun _ => Except.ok 7)
      (get_photo_image (fun _ => Except.ok 7) none ("http://a/art.png", 240, 320)).cache
      ("http://a/art.png", 240, 320)).runs = 0 ∧
    (get_photo_image (fun _ => Except.ok 7)
      (get_photo_image (fun _ => Except.ok 7) none ("http://a/art.png", 240, 320)).cache
      ("http://a/art.png", 240, 320)).cache =
      (get_photo_image (fun _ => Except.ok 7) none ("http://a/art.png", 240, 320)).cache :=
  get_photo_image_memoizes (fun _ => Except.ok 7) ("http://a/art.png", 240, 320) 7 rfl

/-- Claim C4: after a successful resolution of `u1` from an empty cache, a failed
resolution of a different key `u2` raises the pipeline's error, leaves the cached
entry for `u1` intact, and does not populate the cache for `u2`; a subsequent call
for `u1` still returns the cached value without running the pipeline. -/
theorem get_photo_image_failure_preserves_cache {α : Type}
    (pipeline : CacheKey → Except ImageError α) (u1 u2 : String) (w h : ℤ)
    (v : α) (e : ImageError) (hne : u1 ≠ u2)
    (h1 : pipeline (u1, w, h) = Except.ok v)
    (h2 : pipeline (u2, w, h) = Except.error e) :
    (get_photo_image pipeline
      (get_photo_image pipeline none (u1, w, h)).cache (u2, w, h)).result =
      Except.error e ∧
    (get_photo_image pipeline
      (get_photo_image pipeline none (u1, w, h)).cache (u2, w, h)).cache =
      some ((u1, w, h), v) ∧
    (get_photo_image pipeline
      (get_photo_image pipeline
        (get_photo_image pipeline none (u1, w, h)).cache (u2, w, h)).cache
      (u1, w, h)).result = Except.ok v ∧
    (get_photo_image pipeline
      (get_photo_image pipeline
        (get_photo_image pipeline none (u1, w, h)).cache (u2, w, h)).cache
      (u1, w, h)).runs = 0 := by
  have hkne : ¬ (((u1, w, h) : CacheKey) = (u2, w, h)) := by
    simp [hne]
  simp [get_photo_image, h1, h2, hkne]

/-- Witness for `get_photo_image_failure_preserves_cache` with a concrete pipeline
that succeeds on one URI and fails on the other. -/
theorem get_photo_image_failure_preserves_cache_witness :
    (get_photo_image
      (fun k => if k.1 = "http://a" then Except.ok 7 else Except.error ImageError.downloadFailure)
      (get_photo_image
        (fun k => if k.1 = "http://a" then Except.ok 7 else Except.error ImageError.downloadFailure)
        none ("http://a", 240, 320)).cache ("http://b", 240, 320)).result =
      Except.error ImageError.downloadFailure ∧
    (get_photo_image
      (fun k => if k.1 = "http://a" then Except.ok 7 else Except.error ImageError.downloadFailure)
      (get_photo_image
        (fun k => if k.1 = "http://a" then Except.ok 7 else Except.error ImageError.downloadFailure)
        none ("http://a", 240, 320)).cache ("http://b", 240, 320)).cache =
      some (("http://a", 240, 320), 7) ∧
    (get_photo_image
      (fun k => if k.1 = "http://a" then Except.ok 7 else Except.error ImageError.downloadFailure)
      (get_photo_image
        (fun k => if k.1 = "http://a" then Except.ok 7 else Except.error ImageError.downloadFailure)
        (get_photo_image
          (fun k => if k.1 = "http://a" then Except.ok 7 else Except.error ImageError.downloadFailure)
          none ("http://a", 240, 320)).cache ("http://b", 240, 320)).cache
      ("http://a", 240, 320)).result = Except.ok 7 ∧
    (get_photo_image
      (fun k => if k.1 = "http://a" then Except.ok 7 else Except.error ImageError.downloadFailure)
      (get_photo_image
        (fun k => if k.1 = "http://a" then Except.ok 7 else Except.error ImageError.downloadFailure)
        (get_photo_image
          (fun k => if k.1 = "http://a" then Except.ok 7 else Except.error ImageError.downloadFailure)
          none ("http://a", 240, 320)).cache ("http://b", 240, 320)).cache
      ("http://a", 240, 320)).runs = 0 :=
  get_photo_image_failure_preserves_cache
    (fun k => if k.1 = "http://a" then Except.ok 7 else Except.error ImageError.downloadFailure)
    "http://a" "http://b" 240 320 7 ImageError.downloadFailure
    (by decide) (by rfl) (by rfl)

/-- Claim C6: for every URI that does not start with `http:` or `https:`,
`_download_resource` fails with the `ValueError` and attempts no network
request, for every model of the network. -/
theorem download_resource_rejects_unsupported_scheme
    (net : String → Except ImageError ByteContent) (absolute_uri : String)
    (h : (startsWithChars absolute_uri "http:" ||
          startsWithChars absolute_uri "https:") = false) :
    (_download_resource net absolute_uri).1 = Except.error ImageError.valueError ∧
    (_download_resource net absolute_uri).2 = 0 := by
  simp [_download_resource, h]

/-- Witness for `download_resource_rejects_unsupported_scheme` at a `file:` URI. -/
theorem download_resource_rejects_unsupported_scheme_witness :
    (_download_resource (fun _ => Except.ok []) "file:///tmp/art.png").1 =
      Except.error ImageError.valueError ∧
    (_download_resource (fun _ => Except.ok []) "file:///tmp/art.png").2 = 0 :=
  download_resource_rejects_unsupported_scheme
    (fun _ => Except.ok []) "file:///tmp/art.png" (by decide)

/-- Claim C9 (amended): `_remove_alpha_channel` flattens exactly the images of
mode `RGBA` — the result is an `RGB` image of the same size with every pixel
fully opaque — and returns every image of any other mode unchanged, including
the alpha-bearing modes `LA` and `PA`, whose transparency channel survives. -/
theorem remove_alpha_channel_spec (image : PILImage) :
    (image.mode = PILMode.RGBA →
      (_remove_alpha_channel image).mode = PILMode.RGB ∧
      ( _remove_alpha_channel image).mode.hasAlphaChannel = false ∧
      (_remove_alpha_channel image).width = image.width ∧
      (_remove_alpha_channel image).height = image.height ∧
      ∀ x y, ((_remove_alpha_channel image).px x y).a = 255) ∧
    (image.mode ≠ PILMode.RGBA → _remove_alpha_channel image = image) := by
  constructor
  · intro hm
    simp [_remove_alpha_channel, hm, PILMode.hasAlphaChannel]
  · intro hm
    simp [_remove_alpha_channel, hm]

/-- Witness for `remove_alpha_channel_spec` at a concrete transparent RGBA image
and a concrete RGB image. -/
theorem remove_alpha_channel_spec_witness :
    (_remove_alpha_channel ⟨PILMode.RGBA, 2, 3, fun _ _ => ⟨10, 20, 30, 0⟩⟩).mode =
      PILMode.RGB ∧
    _remove_alpha_channel ⟨PILMode.RGB, 2, 3, fun _ _ => ⟨1, 2, 3, 255⟩⟩ =
      ⟨PILMode.RGB, 2, 3, fun _ _ => ⟨1, 2, 3, 255⟩⟩ :=
  ⟨((remove_alpha_channel_spec ⟨PILMode.RGBA, 2, 3, fun _ _ => ⟨10, 20, 30, 0⟩⟩).1 rfl).1,
   (remove_alpha_channel_spec ⟨PILMode.RGB, 2, 3, fun _ _ => ⟨1, 2, 3, 255⟩⟩).2
     (by decide)⟩

/-- Counterexample to claim C9 as stated: a decoded `LA` (grayscale plus alpha)
image carries a transparency channel, yet `_remove_alpha_channel` returns it
unchanged with its transparency channel intact, because the source checks
`image.mode != "RGBA"` and `LA` is not `RGBA`. -/
theorem remove_alpha_channel_spec_counterexample :
    (⟨PILMode.LA, 2, 2, fun _ _ => ⟨10, 10, 10, 0⟩⟩ :
      PILImage).mode.hasAlphaChannel = true ∧
    _remove_alpha_channel ⟨PILMode.LA, 2, 2, fun _ _ => ⟨10, 10, 10, 0⟩⟩ =
      ⟨PILMode.LA, 2, 2, fun _ _ => ⟨10, 10, 10, 0⟩⟩ ∧
    (_remove_alpha_channel
      ⟨PILMode.LA, 2, 2, fun _ _ => ⟨10, 10, 10, 0⟩⟩).mode.hasAlphaChannel = true := by
  refine ⟨rfl, ?_, ?_⟩
  · simp [_remove_alpha_channel]
  · simp [_remove_alpha_channel, PILMode.hasAlphaChannel]

/-- Claim C1: for every AV transport event, when the transport state is
`PLAYING` or `TRANSITIONING` and the handler completes normally, the backlight
activate operation is invoked; for every other transport state the backlight
deactivate operation is invoked and the displayed album art is cleared
(the label is configured with no image). -/
theorem process_av_transport_event_backlight_mapping {α : Type}
    (pipeline : CacheKey → Except ImageError α) (max_width max_height : ℤ)
    (event : AVTransportEvent) (st : LabelState α) :
    ((event.transport_state = "PLAYING" ∨ event.transport_state = "TRANSITIONING") →
      (_process_av_transport_event pipeline max_width max_height event st).result =
        Except.ok () →
      UIEffect.backlightActivate ∈
        (_process_av_transport_event pipeline max_width max_height event st).effects) ∧
    (¬ (event.transport_state = "PLAYING" ∨ event.transport_state = "TRANSITIONING") →
      UIEffect.backlightDeactivate ∈
        (_process_av_transport_event pipeline max_width max_height event st).effects ∧
      UIEffect.configImage none ∈
        (_process_av_transport_event pipeline max_width max_height event st).effects ∧
      (_process_av_transport_event pipeline max_width max_height event st).state.image =
        none) := by
  by_cases hc : event.transport_state = "PLAYING" ∨ event.transport_state = "TRANSITIONING"
  · refine ⟨fun _ hok => ?_, fun hcontra => absurd hc hcontra⟩
    unfold _process_av_transport_event at hok ⊢
    rw [if_pos hc] at hok ⊢
    cases hres : _process_track_meta_data pipeline max_width max_height event st with
    | mk r st2 effects =>
      cases r with
      | ok u => simp [hres]
      | error e => rw [hres] at hok; simp at hok
  · refine ⟨fun hcontra => absurd hcontra hc, fun _ => ?_⟩
    unfold _process_av_transport_event
    rw [if_neg hc]
    simp [_update_album_art]

/-- Witness for `process_av_transport_event_backlight_mapping` at a concrete
`PLAYING` event (metadata without art, so processing succeeds) and a concrete
`STOPPED` event. -/
theorem process_av_transport_event_backlight_mapping_witness :
    UIEffect.backlightActivate ∈
      (_process_av_transport_event (fun _ => Except.ok 7) 240 320
        ⟨"PLAYING", ⟨none⟩, id⟩ ⟨none, none⟩).effects ∧
    UIEffect.backlightDeactivate ∈
      (_process_av_transport_event (fun _ => Except.ok 7) 240 320
        ⟨"STOPPED", ⟨none⟩, id⟩ ⟨none, none⟩).effects :=
  ⟨(process_av_transport_event_backlight_mapping (fun _ => Except.ok 7) 240 320
      ⟨"PLAYING", ⟨none⟩, id⟩ ⟨none, none⟩).1 (Or.inl rfl) rfl,
   ((process_av_transport_event_backlight_mapping (fun _ => Except.ok 7) 240 320
      ⟨"STOPPED", ⟨none⟩, id⟩ ⟨none, none⟩).2 (by decide)).1⟩

/-- Claim C5: an event whose transport state is `PLAYING` or `TRANSITIONING` and
whose track metadata carries no album-art reference leaves the label state (the
displayed art and the cache) unchanged, configures no image, attempts no
resolution, and completes normally. -/
theorem process_av_transport_event_keeps_art_without_uri {α : Type}
    (pipeline : CacheKey → Except ImageError α) (max_width max_height : ℤ)
    (event : AVTransportEvent) (st : LabelState α)
    (h1 : event.transport_state = "PLAYING" ∨ event.transport_state = "TRANSITIONING")
    (h2 : event.current_track_meta_data.album_art_uri = none) :
    (_process_av_transport_event pipeline max_width max_height event st).state = st ∧
    (_process_av_transport_event pipeline max_width max_height event st).result =
      Except.ok () ∧
    (∀ i, UIEffect.configImage i ∉
      (_process_av_transport_event pipeline max_width max_height event st).effects) ∧
    (∀ k, UIEffect.pipelineRun k ∉
      (_process_av_transport_event pipeline max_width max_height event st).effects) := by
  unfold _process_av_transport_event
  rw [if_pos h1]
  unfold _process_track_meta_data
  rw [h2]
  simp

/-- Witness for `process_av_transport_event_keeps_art_without_uri` at a concrete
`PLAYING` event without an album-art reference. -/
theorem process_av_transport_event_keeps_art_without_uri_witness :
    (_process_av_transport_event (fun _ => Except.ok 7) 240 320
      ⟨"PLAYING", ⟨none⟩, id⟩ ⟨some 3, none⟩).state = ⟨some 3, none⟩ ∧
    (_process_av_transport_event (fun _ => Except.ok 7) 240 320
      ⟨"PLAYING", ⟨none⟩, id⟩ ⟨some 3, none⟩).result = Except.ok () ∧
    (∀ i, UIEffect.configImage i ∉
      (_process_av_transport_event (fun _ => Except.ok 7) 240 320
        ⟨"PLAYING", ⟨none⟩, id⟩ ⟨some 3, none⟩).effects) ∧
    (∀ k, UIEffect.pipelineRun k ∉
      (_process_av_transport_event (fun _ => Except.ok 7) 240 320
        ⟨"PLAYING", ⟨none⟩, id⟩ ⟨some 3, none⟩).effects) :=
  process_av_transport_event_keeps_art_without_uri (fun _ => Except.ok 7) 240 320
    ⟨"PLAYING", ⟨none⟩, id⟩ ⟨some 3, none⟩ (Or.inl rfl) rfl

/-- Claim C7: one tick of the queue-polling loop dequeues at most one event
(the remaining queue is the tail of the previous one), leaves the state
untouched when the queue is empty, and reschedules the next tick
unconditionally — also when the dequeued event's handler raises. -/
theorem process_av_transport_event_queue_always_reschedules {α : Type}
    (pipeline : CacheKey → Except ImageError α) (max_width max_height : ℤ)
    (q : List AVTransportEvent) (st : LabelState α) :
    (_process_av_transport_event_queue pipeline max_width max_height q st).rescheduled =
      true ∧
    (_process_av_transport_event_queue pipeline max_width max_height q st).queue =
      q.tail ∧
    q.length ≤
      (_process_av_transport_event_queue pipeline max_width max_height q st).queue.length
        + 1 ∧
    (q = [] →
      (_process_av_transport_event_queue pipeline max_width max_height q st).state = st) := by
  cases q with
  | nil => simp [_process_av_transport_event_queue]
  | cons event rest =>
      cases hres : _process_av_transport_event pipeline max_width max_height event st with
      | mk r st2 effects =>
        simp [_process_av_transport_event_queue, hres]

/-- Claim C8: requesting a favorite index greater than or equal to the length of
the favorites list raises the `IndexError` of the list access (a reported,
non-fatal failure of the key handler) and issues no play command to the
controller. -/
theorem play_sonos_favorite_by_index_out_of_range (favorites : List Favorite)
    (index : ℕ) (h : favorites.length ≤ index) :
    play_sonos_favorite_by_index favorites index = Except.error SonosError.indexError ∧
    issuedCommands (play_sonos_favorite_by_index favorites index) = [] := by
  have hnone : favorites[index]? = none := by
    rw [List.getElem?_eq_none_iff]
    exact h
  simp [play_sonos_favorite_by_index, hnone, issuedCommands]

/-- Witness for `play_sonos_favorite_by_index_out_of_range`: index 1 on a
one-element favorites list. -/
theorem play_sonos_favorite_by_index_out_of_range_witness :
    play_sonos_favorite_by_index [⟨true, some "meta", [⟨"x-rincon:radio"⟩]⟩] 1 =
      Except.error SonosError.indexError ∧
    issuedCommands
      (play_sonos_favorite_by_index [⟨true, some "meta", [⟨"x-rincon:radio"⟩]⟩] 1) = [] :=
  play_sonos_favorite_by_index_out_of_range
    [⟨true, some "meta", [⟨"x-rincon:radio"⟩]⟩] 1 (by decide)

/-- Claim C10 (amended): exiting the backlight context manager invokes `activate`
for both variants; for a sysfs backlight whose sysfs read/write succeeds, this
sets the brightness to its maximum value regardless of the brightness (i.e. the
playback state) at exit — also right after a successful `deactivate` — while on
a swallowed `OSError` the brightness is left unchanged, and the dummy variant
stays a no-op. -/
theorem backlight_exit_restores_maximum (io_ok : Bool) (b : Backlight)
    (st : SysfsBacklightState) :
    Backlight.exitContext io_ok b = b.activate io_ok ∧
    (Backlight.exitContext true (Backlight.sysfs st)).brightnessValue =
      some st.max_brightness ∧
    (Backlight.exitContext true ((Backlight.sysfs st).deactivate true)).brightnessValue =
      some st.max_brightness ∧
    (Backlight.exitContext false (Backlight.sysfs st)).brightnessValue =
      some st.brightness ∧
    Backlight.exitContext io_ok Backlight.dummy = Backlight.dummy := by
  refine ⟨rfl, rfl, rfl, rfl, ?_⟩
  cases io_ok <;> rfl

/-- Counterexample to claim C10 as stated: when the sysfs write raises `OSError`
(brightness file 19, maximum 50, as in the repository's backlight tests),
exiting the context manager swallows the failure and leaves the brightness at
19 instead of setting it to the maximum value 50. -/
theorem backlight_exit_restores_maximum_counterexample :
    Backlight.exitContext false (Backlight.sysfs ⟨19, 50⟩) =
      Backlight.sysfs ⟨19, 50⟩ ∧
    (Backlight.exitContext false (Backlight.sysfs ⟨19, 50⟩)).brightnessValue ≠
      some 50 := by
  refine ⟨rfl, ?_⟩
  decide

/-- Counterexample to the unconditional reading of claim C1: for a `PLAYING`
event whose album-art resolution fails, the handler raises after the failed
resolution and the backlight activate operation is never invoked (the call to
`activate` sits after `_process_track_meta_data`, so it is skipped). -/
theorem process_av_transport_event_backlight_mapping_counterexample :
    (_process_av_transport_event (fun _ => Except.error ImageError.downloadFailure)
      240 320 ⟨"PLAYING", ⟨some "http://a/art.jpg"⟩, fun u => u⟩
      (⟨none, none⟩ : LabelState ℕ)).result =
      Except.error ImageError.downloadFailure ∧
    UIEffect.backlightActivate ∉
      (_process_av_transport_event (fun _ => Except.error ImageError.downloadFailure)
        240 320 ⟨"PLAYING", ⟨some "http://a/art.jpg"⟩, fun u => u⟩
        (⟨none, none⟩ : LabelState ℕ)).effects := by
  constructor
  · simp [_process_av_transport_event, _process_track_meta_data, _update_album_art,
      get_photo_image]
  · simp [_process_av_transport_event, _process_track_meta_data, _update_album_art,
      get_photo_image]

/-- Witness for `process_av_transport_event_queue_always_reschedules` at the
empty queue, discharging its empty-queue implication. -/
theorem process_av_transport_event_queue_always_reschedules_witness :
    (_process_av_transport_event_queue (fun _ => Except.ok (7 : ℕ)) 240 320 []
      ⟨none, none⟩).rescheduled = true ∧
    (_process_av_transport_event_queue (fun _ => Except.ok (7 : ℕ)) 240 320 []
      ⟨none, none⟩).state = ⟨none, none⟩ :=
  ⟨(process_av_transport_event_queue_always_reschedules (fun _ => Except.ok (7 : ℕ))
      240 320 [] ⟨none, none⟩).1,
   (process_av_transport_event_queue_always_reschedules (fun _ => Except.ok (7 : ℕ))
      240 320 [] ⟨none, none⟩).2.2.2 rfl⟩
